import Mathlib

/-!
Shallow embedding of the WhatsApp Revenue Copilot source (src/shared and
src/agents) together with proofs about the frozen claims.

Conventions of the embedding:
* Python floats used by the code (confidence scores, timestamps) are modelled
  as rationals; all values occurring in the code are exact decimal fractions.
* Python exceptions are modelled by `Except`: a function that can raise
  returns `Except String α` (or a dedicated error type).
* External collaborators (language model, embedding service, vector store,
  wall clock) are passed in explicitly as oracle functions, so every step of
  the pipelines becomes a pure, executable Lean function.
-/

namespace Copilot

/-! ### Character classes and small string utilities

These model the character classes used by the regular expressions in
`src/agents/agentA_knowledge/graph.py` (`\d`, `\s`, `\b`, `[A-Za-z\s]`) and
Python string truthiness.  The source is only ever exercised on ASCII text,
so `\w` is modelled by its ASCII meaning `[A-Za-z0-9_]`. -/

def isDigitChar (c : Char) : Bool := '0' ≤ c && c ≤ '9'

def isAsciiLetter (c : Char) : Bool := ('a' ≤ c && c ≤ 'z') || ('A' ≤ c && c ≤ 'Z')

def isWordChar (c : Char) : Bool := isAsciiLetter c || isDigitChar c || c = '_'

def isSpaceChar (c : Char) : Bool :=
  c = ' ' || c = '\t' || c = '\n' || c = '\r' || c = '\x0b' || c = '\x0c'

/-- ASCII lower-casing of one character, as `str.lower` does on ASCII text. -/
def lowerChar (c : Char) : Char :=
  if 'A' ≤ c && c ≤ 'Z' then Char.ofNat (c.toNat + 32) else c

/-- ASCII lower-casing of a string (`str.lower`). -/
def strLower (s : String) : String := String.mk (s.toList.map lowerChar)

/-- Does `h` start with `n` (case sensitive)? -/
def startsWithChars (n h : List Char) : Bool :=
  match n, h with
  | [], _ => true
  | _ :: _, [] => false
  | a :: n', c :: h' => a = c && startsWithChars n' h'

/-- Does `h` start with `n`, comparing case-insensitively (the needle `n` is
given lower-case)? Models `re.IGNORECASE` literal matching. -/
def startsWithCI (n h : List Char) : Bool :=
  match n, h with
  | [], _ => true
  | _ :: _, [] => false
  | a :: n', c :: h' => a = lowerChar c && startsWithCI n' h'

/-- Substring containment (`needle in haystack` on Python strings). -/
def containsSub (n : List Char) : List Char → Bool
  | [] => startsWithChars n []
  | c :: t => startsWithChars n (c :: t) || containsSub n t

/-- Python truthiness of an optional string (`None` and `""` are falsy). -/
def pyTruthyStr (o : Option String) : Bool :=
  match o with
  | none => false
  | some s => !s.isEmpty

/-! ### Resilience layer: `src/shared/error_handling.py`

The error taxonomy.  `Exc.wrapped` never occurs in the transcription of the
source: it exists only to express what the specification predicts the retry
decorator produces on exhaustion ("the last transient error, now wrapped with
attempt count"); the source performs a bare `raise` instead. -/

inductive Exc where
  | integration (msg : String)   -- IntegrationError
  | connection (msg : String)    -- builtin ConnectionError
  | timeoutErr (msg : String)    -- builtin TimeoutError
  | validation (msg : String)    -- ValidationError
  | generic (msg : String)       -- any other exception
  | wrapped (attempts : Nat) (inner : Exc)
  deriving DecidableEq, Repr

/-- The exception classes caught by the retry decorator's
`except (IntegrationError, ConnectionError, TimeoutError)` clause. -/
def isTransient : Exc → Bool
  | .integration _ => true
  | .connection _ => true
  | .timeoutErr _ => true
  | _ => false

/-- Is the exception the spec-predicted "wrapped with attempt count" shape?
The transcribed retry loop never produces it. -/
def isWrappedExc : Except Exc String → Bool
  | .error (.wrapped _ _) => true
  | _ => false

/-- Loop body of `retry_on_error.wrapper` (src/shared/error_handling.py,
lines 115-139).  `behavior n` is the outcome of invoking the wrapped function
on attempt `n` (0-based); `remaining` is `max_retries - attempt`, so
`attempt < max_retries` in the source corresponds to `remaining > 0` here.
Returns the final outcome together with the number of invocations made.
The backoff sleeps are real-time effects with no bearing on the claims and
are not modelled. -/
def retryAux (behavior : Nat → Except Exc String) (attempt : Nat) :
    Nat → Except Exc String × Nat
  | 0 => (behavior attempt, 1)            -- last attempt: success returned, any error re-raised bare
  | r + 1 =>
    match behavior attempt with
    | .ok v => (.ok v, 1)
    | .error e =>
      if isTransient e then
        let rest := retryAux behavior (attempt + 1) r
        (rest.1, rest.2 + 1)
      else (.error e, 1)                  -- non-transient: re-raised immediately, no retry

/-- `retry_on_error(max_retries=...)` applied to a function whose per-attempt
outcomes are `behavior`. -/
def retry_on_error (maxRetries : Nat) (behavior : Nat → Except Exc String) :
    Except Exc String × Nat :=
  retryAux behavior 0 maxRetries

/-! Circuit breaker (src/shared/error_handling.py, lines 319-363). -/

inductive CBState where
  | closed | opened | halfOpen
  deriving DecidableEq, Repr

structure CircuitBreaker where
  failure_threshold : Nat
  reset_timeout : ℚ
  failure_count : Nat
  last_failure_time : Option ℚ
  state : CBState
  deriving DecidableEq, Repr

/-- `CircuitBreaker.__init__` with `failure_count=0`, `last_failure_time=None`,
`state="CLOSED"`. -/
def CircuitBreaker.init (threshold : Nat) (timeout : ℚ) : CircuitBreaker :=
  { failure_threshold := threshold, reset_timeout := timeout,
    failure_count := 0, last_failure_time := none, state := .closed }

/-- `openai_circuit_breaker = CircuitBreaker(failure_threshold=3, reset_timeout=30)`. -/
def openai_circuit_breaker : CircuitBreaker := CircuitBreaker.init 3 30

/-- `google_circuit_breaker = CircuitBreaker(failure_threshold=5, reset_timeout=60)`. -/
def google_circuit_breaker : CircuitBreaker := CircuitBreaker.init 5 60

/-- Outcome of invoking the protected function `func`. -/
inductive CallOutcome where
  | success (v : String)
  | failure (msg : String)
  deriving DecidableEq, Repr

/-- Result of `CircuitBreaker.call`: the returned value, the immediate
`IntegrationError("Circuit breaker is OPEN", code CIRCUIT_BREAKER_OPEN)`
raised without invoking `func`, or the `IntegrationError(code
SERVICE_CALL_FAILED)` that wraps a failure of `func`. -/
inductive CBResult where
  | ok (v : String)
  | circuitOpenErr
  | serviceCallFailed (msg : String) (breakerState : CBState)
  deriving DecidableEq, Repr

/-- The `try`/`except` part of `CircuitBreaker.call` (lines 340-358), reached
after the OPEN check: invoke `func`; on success reset only from HALF_OPEN; on
failure bump `failure_count`, stamp `last_failure_time`, open the breaker
when the threshold is reached, and raise `SERVICE_CALL_FAILED`. -/
def CircuitBreaker.proceed (cb : CircuitBreaker) (now : ℚ) (outcome : CallOutcome) :
    CircuitBreaker × CBResult × Bool :=
  match outcome with
  | .success v =>
    if cb.state = .halfOpen then
      ({ cb with state := .closed, failure_count := 0 }, .ok v, true)
    else (cb, .ok v, true)
  | .failure msg =>
    let fc := cb.failure_count + 1
    let cb2 := { cb with failure_count := fc, last_failure_time := some now }
    let cb3 := if cb2.failure_threshold ≤ fc then { cb2 with state := .opened } else cb2
    (cb3, .serviceCallFailed ("Service call failed: " ++ msg) cb3.state, true)

/-- `CircuitBreaker.call` (lines 329-358).  `now` is the current wall-clock
timestamp (`datetime.now().timestamp()`); `outcome` is what invoking `func`
would produce.  The returned `Bool` records whether `func` was invoked.
In the source the OPEN state is only ever entered after a failure has set
`last_failure_time`, so the `(OPEN, None)` case is unreachable; it is mapped
to the immediate open-breaker error. -/
def CircuitBreaker.call (cb : CircuitBreaker) (now : ℚ) (outcome : CallOutcome) :
    CircuitBreaker × CBResult × Bool :=
  match cb.state with
  | .opened =>
    match cb.last_failure_time with
    | some t =>
      if cb.reset_timeout < now - t then
        CircuitBreaker.proceed { cb with state := .halfOpen } now outcome
      else (cb, .circuitOpenErr, false)
    | none => (cb, .circuitOpenErr, false)
  | .closed => CircuitBreaker.proceed cb now outcome
  | .halfOpen => CircuitBreaker.proceed cb now outcome

/-! ### Lead quality scoring: `src/agents/agentB_dealflow/graph.py` -/

/-- The fields of a parsed lead dictionary that `_calculate_quality_score`
inspects (`lead_data.get(...)` on string values produced by
`_parse_lead_info`). -/
structure LeadData where
  name : Option String
  company : Option String
  intent : Option String
  budget : Option String

/-- `DealflowAgent._calculate_quality_score` (lines 366-386): additive
presence bonuses, capped at 1.0.  `lead_data.get(k)` is truthy exactly when
the key is present with a non-empty string. -/
def calculate_quality_score (lead : LeadData) : ℚ :=
  let score : ℚ := 0
  let score := if pyTruthyStr lead.name then score + 2/10 else score
  let score := if pyTruthyStr lead.company then score + 3/10 else score
  let score := if pyTruthyStr lead.intent then score + 3/10 else score
  let score := if pyTruthyStr lead.budget then score + 2/10 else score
  min 1 score

/-! ### Transcription of `KnowledgeAgent._extract_time_info` (graph.py, 338-355)

The method runs `re.findall(pattern, text, re.IGNORECASE)` for five patterns
and stores a key in the resulting dict exactly when the pattern has at least
one match.  Each matcher below decides, by explicit backtracking, whether the
corresponding pattern matches at a given position (`prev` is the character
just before that position, used for the `\b` anchors); `reSearch` scans all
positions, so `reSearch p text` holds iff `re.findall` is non-empty. -/

/-- Word boundary `\b` between a last consumed character and the rest. -/
def boundaryOk (last : Char) (r : List Char) : Bool :=
  isWordChar last != (match r with | [] => false | c :: _ => !(!isWordChar c))

/-- Boundary `\b` before a word character: the previous character must be
absent or a non-word character. -/
def prevNonWord (prev : Option Char) : Bool :=
  match prev with
  | none => true
  | some c => !isWordChar c

/-- Tail `(am|pm|AM|PM)?\b` of the time pattern (case-insensitive). -/
def timeTail3 (last : Char) (r : List Char) : Bool :=
  boundaryOk last r ||
  (match r with
   | a :: m :: r' =>
     (lowerChar a = 'a' || lowerChar a = 'p') && lowerChar m = 'm' && boundaryOk m r'
   | _ => false)

/-- Tail `\s*(am|pm|AM|PM)?\b` of the time pattern: try every split of the
leading whitespace run. -/
def timeTail2 (last : Char) : List Char → Bool
  | [] => timeTail3 last []
  | c :: r' => timeTail3 last (c :: r') || (isSpaceChar c && timeTail2 c r')

/-- Tail `:?(\d{2})?\s*(am|pm|AM|PM)?\b` of the time pattern. -/
def timeTail1 (last : Char) (r : List Char) : Bool :=
  timeTailDigits last r ||
  (match r with
   | ':' :: r' => timeTailDigits ':' r'
   | _ => false)
where
  /-- Tail `(\d{2})?\s*(am|pm|AM|PM)?\b`. -/
  timeTailDigits (last : Char) (r : List Char) : Bool :=
    timeTail2 last r ||
    (match r with
     | a :: b :: r' => isDigitChar a && isDigitChar b && timeTail2 b r'
     | _ => false)

/-- The `"time"` pattern `\b(\d{1,2}):?(\d{2})?\s*(am|pm|AM|PM)?\b` matched at
one position. -/
def matchTimeAt (prev : Option Char) (cs : List Char) : Bool :=
  prevNonWord prev &&
  (match cs with
   | d1 :: rest =>
     isDigitChar d1 &&
     (timeTail1 d1 rest ||
      (match rest with
       | d2 :: rest2 => isDigitChar d2 && timeTail1 d2 rest2
       | [] => false))
   | [] => false)

/-- The day-word alternation of the `"day"` pattern in
`KnowledgeAgent._extract_time_info`. -/
def dayWords : List (List Char) :=
  ["monday", "tuesday", "wednesday", "thursday", "friday", "saturday",
   "sunday", "tomorrow", "today"].map String.toList

/-- The `"day"` pattern `\b(monday|...|tomorrow|today)\b` (case-insensitive)
matched at one position. -/
def matchDayAt (prev : Option Char) (cs : List Char) : Bool :=
  prevNonWord prev &&
  dayWords.any (fun w =>
    startsWithCI w cs &&
    (match cs.drop w.length with
     | [] => true
     | c :: _ => !isWordChar c))

/-- Remainders of `cs` after consuming one or two digits (`\d{1,2}`). -/
def digitTake1or2 (cs : List Char) : List (List Char) :=
  match cs with
  | a :: r =>
    if isDigitChar a then
      r :: (match r with
            | b :: r2 => if isDigitChar b then [r2] else []
            | [] => [])
    else []
  | [] => []

/-- Remainders of `cs` after consuming two to four digits (`\d{2,4}`). -/
def digitTake2to4 (cs : List Char) : List (List Char) :=
  match cs with
  | a :: b :: r =>
    if isDigitChar a && isDigitChar b then
      r :: (match r with
            | c :: r2 =>
              if isDigitChar c then
                r2 :: (match r2 with
                       | d :: r3 => if isDigitChar d then [r3] else []
                       | [] => [])
              else []
            | [] => [])
    else []
  | _ => []

/-- One separator character, slash or dash. -/
def sepSlashDash (cs : List Char) : Option (List Char) :=
  match cs with
  | c :: r => if c = '/' || c = '-' then some r else none
  | [] => none

/-- `\b` after a digit: next character absent or non-word. -/
def boundaryAfterDigit (r : List Char) : Bool :=
  match r with
  | [] => true
  | c :: _ => !isWordChar c

/-- The `"date"` pattern — one or two digits, a slash-or-dash separator, one
or two digits, a separator, two to four digits, between word boundaries —
matched at one position. -/
def matchDateAt (prev : Option Char) (cs : List Char) : Bool :=
  prevNonWord prev &&
  (digitTake1or2 cs).any (fun r1 =>
    match sepSlashDash r1 with
    | some r2 =>
      (digitTake1or2 r2).any (fun r3 =>
        match sepSlashDash r3 with
        | some r4 => (digitTake2to4 r4).any boundaryAfterDigit
        | none => false)
    | none => false)

/-- Characters of the class `[A-Za-z\s]`. -/
def isNameChar (c : Char) : Bool := isAsciiLetter c || isSpaceChar c

/-- `\s+W` for a literal word `W` (case-insensitive): one or more whitespace
characters followed by the word. -/
def spacesThenCI (w : List Char) : List Char → Bool
  | [] => false
  | c :: r' => isSpaceChar c && (startsWithCI w r' || spacesThenCI w r')

/-- The terminator `(?:\s+about|\s+regarding|$)` of the `"with"` pattern. -/
def withEnd (r : List Char) : Bool :=
  match r with
  | [] => true
  | _ :: _ => spacesThenCI "about".toList r || spacesThenCI "regarding".toList r

/-- `([A-Za-z\s]+?)(?:\s+about|\s+regarding|$)`: a non-empty run of name
characters up to the terminator. -/
def withBody : List Char → Bool
  | [] => false
  | c :: r' => isNameChar c && (withEnd r' || withBody r')

/-- The `"with"` pattern `\bwith\s+([A-Za-z\s]+?)(?:\s+about|\s+regarding|$)`
matched at one position. -/
def matchWithAt (prev : Option Char) (cs : List Char) : Bool :=
  prevNonWord prev && startsWithCI "with".toList cs &&
  (match cs.drop 4 with
   | c :: r' => isSpaceChar c && withBody r'
   | [] => false)

/-- The terminator `(?:\.|$)` of the `"about"` pattern. -/
def aboutEnd (r : List Char) : Bool :=
  match r with
  | [] => true
  | c :: _ => c = '.'

/-- `([A-Za-z\s]+?)(?:\.|$)`: a non-empty run of name characters up to a dot
or end of string. -/
def aboutBody : List Char → Bool
  | [] => false
  | c :: r' => isNameChar c && (aboutEnd r' || aboutBody r')

/-- The `"about"` pattern `\babout\s+([A-Za-z\s]+?)(?:\.|$)` matched at one
position. -/
def matchAboutAt (prev : Option Char) (cs : List Char) : Bool :=
  prevNonWord prev && startsWithCI "about".toList cs &&
  (match cs.drop 5 with
   | c :: r' => isSpaceChar c && aboutBody r'
   | [] => false)

/-- Scan every position of the text, threading the previous character. -/
def scanAux (p : Option Char → List Char → Bool) : Option Char → List Char → Bool
  | prev, [] => p prev []
  | prev, c :: cs => p prev (c :: cs) || scanAux p (some c) cs

/-- `re.findall(pattern, text, re.IGNORECASE)` is non-empty iff the pattern
matches at some position. -/
def reSearch (p : Option Char → List Char → Bool) (s : String) : Bool :=
  scanAux p none s.toList

/-- The keys of the dict built by `KnowledgeAgent._extract_time_info`, in the
source's insertion order `time, day, date, with, about`.  The dict values
(the matched fragments) are never consumed downstream — `_parse_scheduling`
reads only `time_info.get("time_str", "")`, a key that is never present — so
only the key set is modelled. -/
def extract_time_info_keys (text : String) : List String :=
  (if reSearch matchTimeAt text then ["time"] else []) ++
  (if reSearch matchDayAt text then ["day"] else []) ++
  (if reSearch matchDateAt text then ["date"] else []) ++
  (if reSearch matchWithAt text then ["with"] else []) ++
  (if reSearch matchAboutAt text then ["about"] else [])

/-! ### Wall-clock model

`datetime` values are modelled as a day index plus a minute-of-day; this is
enough for the scheduling claims, which are about `replace(hour=10, minute=0)`
on `now() + timedelta(days=1)` and a one-hour meeting length. -/

structure PyDateTime where
  day : Nat
  minute : Nat
  deriving DecidableEq, Repr

/-- `dt + timedelta(days=n)`. -/
def PyDateTime.addDays (dt : PyDateTime) (n : Nat) : PyDateTime :=
  { dt with day := dt.day + n }

/-- `dt.replace(hour=h, minute=m, second=0, microsecond=0)`. -/
def PyDateTime.replaceTime (dt : PyDateTime) (h m : Nat) : PyDateTime :=
  { dt with minute := h * 60 + m }

/-- `dt + timedelta(hours=n)`. -/
def PyDateTime.addHours (dt : PyDateTime) (n : Nat) : PyDateTime :=
  { day := dt.day + (dt.minute + n * 60) / 1440, minute := (dt.minute + n * 60) % 1440 }

/-- `KnowledgeAgent._parse_datetime` (graph.py, 357-365): the argument is
ignored and the result is always "tomorrow at 10:00" relative to `now`. -/
def parse_datetime (now : PyDateTime) (timeStr : String) : Option PyDateTime :=
  let _ := timeStr
  some ((now.addDays 1).replaceTime 10 0)

/-! ### Knowledge agent: `src/agents/agentA_knowledge/graph.py` -/

/-- One dict entry of a Chroma query result, as `_retrieve_documents` turns it
into a `Document`: the chunk text plus the optional `title` and `source`
metadata fields read later with `.get`. -/
structure Chunk where
  content : String
  title : Option String
  source : Option String
  deriving DecidableEq, Repr

/-- The `Citation` pydantic model (graph.py, 25-30); `page_ranges` is always
`None` where citations are built, so it is dropped. -/
structure CitationR where
  title : String
  drive_file_id : String
  snippet : String
  deriving DecidableEq, Repr

/-- The scheduling record `_parse_scheduling` stores in `follow_up_info`. -/
structure ScheduleInfo where
  title : String
  start : PyDateTime
  endTime : Option PyDateTime
  attendees : List String
  deriving DecidableEq, Repr

/-- The two kinds of value the loosely typed `follow_up_info` field holds:
the raw extraction dict written by `_self_reflect` (only its key set is
observable downstream) or the structured record written by
`_parse_scheduling`. -/
inductive FollowUp where
  | hints (keys : List String)
  | sched (info : ScheduleInfo)
  deriving DecidableEq, Repr

/-- Python truthiness of the `follow_up_info` slot: `None` and the empty
dict are falsy. -/
def followUpTruthy (o : Option FollowUp) : Bool :=
  match o with
  | none => false
  | some (.hints ks) => !ks.isEmpty
  | some (.sched _) => true

/-- `KnowledgeState` (graph.py, 53-65). -/
structure KState where
  user_id : String
  query : String
  drive_file_id : Option String
  chunks : List String
  retrieved_docs : List Chunk
  answer : String
  citations : List CitationR
  confidence : ℚ
  follow_up_info : Option FollowUp
  error : Option String
  deriving DecidableEq, Repr

/-- External collaborators of the knowledge agent, passed as total oracles:
the text splitter, the embedding + Chroma query pipeline (collapsed into one
text-to-chunks function, as `_retrieve_documents` uses them back to back),
and the generation model for the answer and reflection prompts. -/
structure KEnv where
  splitChunks : String → List String
  retrieve : String → List Chunk
  llm : String → String

/-- The placeholder document content built in `_ingest_document` for a Drive
file id. -/
def mock_content (fid : String) : String :=
  "\n            Sample document content for file " ++ fid ++ ".\n" ++
  "            This would contain the actual document text retrieved from Google Drive.\n" ++
  "            Company refund policy: All purchases can be refunded within 30 days.\n" ++
  "            Digital goods have a 7-day refund window.\n" ++
  "            For enterprise clients, custom refund terms apply.\n            "

/-- `KnowledgeAgent._ingest_document` (graph.py, 128-180): a missing (or
empty, by Python truthiness) `drive_file_id` records an error in the state
and returns; otherwise the mock content is split and stored and the chunks
are written to the state.  The Chroma/embedding writes are external effects
with no bearing on the state fields the claims read. -/
def ingest_document (env : KEnv) (s : KState) : KState :=
  if !pyTruthyStr s.drive_file_id then
    { s with error := some "No drive file ID provided" }
  else
    { s with chunks := env.splitChunks (mock_content (s.drive_file_id.getD "")) }

/-- `KnowledgeAgent._retrieve_documents` (graph.py, 182-214). -/
def retrieve_documents (env : KEnv) (s : KState) : KState :=
  if s.query.isEmpty then
    { s with error := some "No query provided" }
  else
    { s with retrieved_docs := env.retrieve s.query }

/-- The fixed no-information answer written by `_generate_answer` when
nothing was retrieved. -/
def no_information_answer : String :=
  "I don\x27t have relevant information to answer that question."

/-- The answer-generation prompt built by `_generate_answer` from the
enumerated 500-character context excerpts and the query. -/
def answer_prompt (s : KState) : String :=
  let context := String.intercalate "\n\n"
    ((s.retrieved_docs.enum).map (fun p =>
      "[" ++ toString (p.1 + 1) ++ "] " ++ p.2.content.take 500 ++ "..."))
  "Based on the following context, answer the user\x27s question. \n" ++
  "            Be concise and accurate. Cite sources using [1], [2], etc.\n\n" ++
  "Context:\n" ++ context ++ "\n\nQuestion: " ++ s.query ++ "\n\nAnswer with citations:"

/-- `KnowledgeAgent._generate_answer` (graph.py, 216-269).  The second
component counts generation-model calls made by the step. -/
def generate_answer (env : KEnv) (s : KState) : KState × Nat :=
  if s.retrieved_docs.isEmpty then
    ({ s with answer := no_information_answer, confidence := 1/10, citations := [] }, 0)
  else
    let answer := env.llm (answer_prompt s)
    let citations := (s.retrieved_docs.enum).map (fun p =>
      { title := p.2.title.getD ("Document " ++ toString (p.1 + 1)),
        drive_file_id := p.2.source.getD "unknown",
        snippet := p.2.content.take 200 : CitationR })
    let confidence : ℚ :=
      min (9/10)
        (((s.retrieved_docs.filter (fun d => 100 < d.content.length)).length : ℚ) * (2/10))
    ({ s with answer := answer, citations := citations, confidence := confidence }, 1)

/-- The scheduling keyword list of `_self_reflect`. -/
def scheduling_keywords : List String :=
  ["schedule", "meeting", "call", "appointment", "book",
   "set up", "arrange", "calendar", "time", "when", "available"]

/-- `any(keyword in query.lower() for keyword in scheduling_keywords)`. -/
def has_scheduling (query : String) : Bool :=
  scheduling_keywords.any (fun k => containsSub k.toList (strLower query).toList)

/-- The fixed clarification suffix appended by `_self_reflect` when
confidence is below 0.3. -/
def clarification_suffix : String :=
  "\n\n(Note: I\x27m not very confident in this answer. " ++
  "Could you provide more specific details or rephrase your question?)"

/-- The reflection prompt `_self_reflect` sends to the model when confidence
is below 0.6 (its response is only logged). -/
def reflection_prompt (s : KState) : String :=
  "\n                Review this Q&A for accuracy and completeness:\n" ++
  "                \n                Question: " ++ s.query ++
  "\n                Answer: " ++ s.answer ++
  "\n                Confidence: " ++ toString s.confidence ++
  "\n                \n                Is the answer accurate and complete? " ++
  "Should we request clarification?\n                Respond with brief assessment.\n                "

/-- `KnowledgeAgent._self_reflect` (graph.py, 271-313): store the raw
extraction dict in `follow_up_info` when a scheduling keyword occurs in the
query; below confidence 0.6, issue one reflection call (logged only); below
0.3, append the clarification suffix to the answer.  The second component
counts generation-model calls. -/
def self_reflect (env : KEnv) (s : KState) : KState × Nat :=
  let s1 := if has_scheduling s.query then
      { s with follow_up_info := some (.hints (extract_time_info_keys s.query)) }
    else s
  if s.confidence < 6/10 then
    let _ := env.llm (reflection_prompt s)
    if s.confidence < 3/10 then
      ({ s1 with answer := s1.answer ++ clarification_suffix }, 1)
    else (s1, 1)
  else (s1, 0)

/-- `KnowledgeAgent._parse_scheduling` (graph.py, 315-336): re-extract hints
from the query; if the dict is non-empty, `_parse_datetime` (which always
succeeds with tomorrow 10:00) supplies the start, the end is one hour later,
and the dict lookups `title`/`attendees` fall back to their defaults because
those keys are never present. -/
def parse_scheduling (now : PyDateTime) (s : KState) : KState :=
  if !(extract_time_info_keys s.query).isEmpty then
    match parse_datetime now "" with
    | some start =>
      { s with follow_up_info := some (.sched
          { title := "Follow-up meeting", start := start,
            endTime := some (start.addHours 1), attendees := [] }) }
    | none => s
  else s

/-- `KnowledgeAgent._route_after_ingest` (graph.py, 367-371): the route
depends only on the truthiness of `query`; the `error` field is not
consulted. -/
def route_after_ingest (s : KState) : String :=
  if !s.query.isEmpty then "continue" else "end"

/-- `KnowledgeAgent._route_after_reflection` (graph.py, 373-377). -/
def route_after_reflection (s : KState) : String :=
  if followUpTruthy s.follow_up_info then "schedule" else "end"

/-- One full run of the compiled graph (`_build_graph`, graph.py, 96-126):
entry at `ingest_node`, conditional edge to `retrieve_node` or END, linear
edges to `answer_node` and `reflect_node`, conditional edge to
`schedule_parse_node` or END.  Returns the final state, the list of executed
node names in order, and the number of generation-model calls. -/
def runKnowledgeGraph (env : KEnv) (now : PyDateTime) (s0 : KState) :
    KState × List String × Nat :=
  let s1 := ingest_document env s0
  if route_after_ingest s1 = "continue" then
    let s2 := retrieve_documents env s1
    let a := generate_answer env s2
    let r := self_reflect env a.1
    if route_after_reflection r.1 = "schedule" then
      let s5 := parse_scheduling now r.1
      (s5, ["ingest_node", "retrieve_node", "answer_node", "reflect_node",
            "schedule_parse_node"], a.2 + r.2)
    else
      (r.1, ["ingest_node", "retrieve_node", "answer_node", "reflect_node"], a.2 + r.2)
  else (s1, ["ingest_node"], 0)

/-- The initial `KnowledgeState` built by the API methods (graph.py, 385-397,
414-426, 444-456). -/
def initialState (user query : String) (fid : Option String) : KState :=
  { user_id := user, query := query, drive_file_id := fid, chunks := [],
    retrieved_docs := [], answer := "", citations := [], confidence := 0,
    follow_up_info := none, error := none }

/-- The `KnowledgeAnswer` pydantic model, minus the request-tracking uuid. -/
structure KnowledgeAnswerR where
  answer : String
  citations : List CitationR
  confidence : ℚ
  deriving DecidableEq, Repr

/-- `KnowledgeAgent.ask` (graph.py, 410-438): run the full graph from a state
with `drive_file_id=None`; raise the recorded error if the final state
carries one. -/
def ask (env : KEnv) (now : PyDateTime) (user text : String) :
    Except String KnowledgeAnswerR :=
  let r := runKnowledgeGraph env now (initialState user text none)
  match r.1.error with
  | some e => .error e
  | none => .ok { answer := r.1.answer, citations := r.1.citations,
                  confidence := r.1.confidence }

/-- The `FollowUpSchedule` pydantic model, minus the request-tracking uuid.
ISO strings are represented by the underlying datetimes (`isoformat` is an
injective rendering). -/
structure FollowUpScheduleR where
  title : String
  start_iso : PyDateTime
  end_iso : Option PyDateTime
  attendees : Option (List String)
  deriving DecidableEq, Repr

/-- `KnowledgeAgent.followup_parse` (graph.py, 440-471): run only the
`_parse_scheduling` step on a fresh state; raise when `follow_up_info` is
still falsy afterwards. -/
def followup_parse (now : PyDateTime) (text : String) :
    Except String FollowUpScheduleR :=
  let r := parse_scheduling now (initialState "system" text none)
  match r.follow_up_info with
  | some (.sched info) =>
    .ok { title := info.title, start_iso := info.start,
          end_iso := info.endTime, attendees := some info.attendees }
  | _ => .error "Could not parse scheduling information"

/-! ### Intent classifier: `src/shared/intent_classifier.py` -/

/-- The `ExtractedEntities` pydantic model (all fields default to `[]`). -/
structure ExtractedEntities where
  names : List String
  organizations : List String
  dates_times : List String
  budget_amounts : List String
  contact_info : List String
  deriving DecidableEq, Repr

/-- `ExtractedEntities()`: every list empty. -/
def emptyEntities : ExtractedEntities := ⟨[], [], [], [], []⟩

/-- The `IntentClassification` pydantic model. -/
structure IntentClassificationR where
  intent : String
  confidence : ℚ
  entities : ExtractedEntities
  reasoning : String
  deriving DecidableEq, Repr

/-- External collaborators of `IntentClassifier`: the chat model (which may
raise), the structured-output parser (which may raise), and the parser's
format-instructions text interpolated into the user prompt. -/
structure ClassifierEnv where
  llm : String → Except String String
  parse : String → Except String IntentClassificationR
  formatInstructions : String

/-- `IntentClassifier._build_system_prompt` (intent_classifier.py, 86-102). -/
def build_system_prompt : String :=
  "You are an expert intent classifier for a WhatsApp business copilot.\n\n" ++
  "Analyze messages and classify them into these intents:\n\n" ++
  "1. **knowledge_qa**: Questions about company info, policies, docs " ++
  "(e.g., \"What\x27s our refund policy?\")\n" ++
  "2. **lead_capture**: New prospect information " ++
  "(e.g., \"John from Acme wants a PoC, budget 10k\")\n" ++
  "3. **proposal_request**: Request to generate proposals " ++
  "(e.g., \"Draft a proposal for Acme\")\n" ++
  "4. **next_step**: Scheduling meetings/calls " ++
  "(e.g., \"Schedule demo next Wed at 11\")\n" ++
  "5. **status_update**: Deal status changes " ++
  "(e.g., \"We lost Acme - budget cut\")\n" ++
  "6. **smalltalk**: Greetings, thanks, casual conversation\n" ++
  "7. **unknown**: Unclear or unrelated messages\n\n" ++
  "Extract entities like names, companies, dates, budgets, contact info.\n\n" ++
  "CRITICAL: Return only valid JSON matching the schema. No explanatory text."

/-- `IntentClassifier._build_user_prompt` (intent_classifier.py, 104-113);
`if context:` is Python truthiness over the optional string. -/
def build_user_prompt (env : ClassifierEnv) (message : String)
    (context : Option String) : String :=
  let p := "Message to classify: \"" ++ message ++ "\"\n"
  let p := if pyTruthyStr context then
      p ++ "Previous context: " ++ context.getD "" ++ "\n"
    else p
  p ++ "\nReturn classification as JSON:\n" ++ env.formatInstructions

/-- The single `HumanMessage` content sent to the model. -/
def full_prompt (env : ClassifierEnv) (message : String)
    (context : Option String) : String :=
  build_system_prompt ++ "\n\n" ++ build_user_prompt env message context

/-- The fallback classification built in the `except` clause of
`IntentClassifier.classify`. -/
def fallback_classification (e : String) : IntentClassificationR :=
  { intent := "unknown", confidence := 1/10, entities := emptyEntities,
    reasoning := "Classification failed: " ++ e }

/-- `IntentClassifier.classify` (intent_classifier.py, 43-84).  The second
component counts calls made to the chat model.  The function is total: every
failure of the model call or of output parsing is absorbed into the fallback
classification. -/
def classify (env : ClassifierEnv) (message : String) (hasAttachments : Bool)
    (context : Option String) : IntentClassificationR × Nat :=
  if hasAttachments then
    ({ intent := "knowledge_qa", confidence := 9/10, entities := emptyEntities,
       reasoning := "Message contains file attachments - routing for ingestion" }, 0)
  else
    match env.llm (full_prompt env message context) with
    | .error e => (fallback_classification e, 1)
    | .ok content =>
      match env.parse content with
      | .error e => (fallback_classification e, 1)
      | .ok result => (result, 1)

/-! ### Stub collaborator environments used for concrete evaluations -/

/-- Deterministic stub environment for the knowledge agent: empty vector
store, model answering the empty string. -/
def stubKEnv : KEnv :=
  { splitChunks := fun _ => [], retrieve := fun _ => [], llm := fun _ => "" }

/-- Classifier environment whose model call always fails. -/
def failingClassifierEnv : ClassifierEnv :=
  { llm := fun _ => .error "boom", parse := fun _ => .error "unparsable",
    formatInstructions := "" }

/-- Classifier environment whose model call succeeds but whose output the
parser rejects. -/
def unparsableClassifierEnv : ClassifierEnv :=
  { llm := fun _ => .ok "gibberish", parse := fun _ => .error "Invalid JSON",
    formatInstructions := "" }

/-- The breaker state after three straight failing calls on the generation
model's breaker (`threshold=3, reset_timeout=30`). -/
def callTrace3 (t1 t2 t3 : ℚ) (e1 e2 e3 : String) : CircuitBreaker :=
  (((openai_circuit_breaker.call t1 (.failure e1)).1.call t2
      (.failure e2)).1.call t3 (.failure e3)).1

/-- Per-attempt behavior where every attempt raises a distinct transient
`IntegrationError`. -/
def allFailBehavior : Nat → Except Exc String :=
  fun i => .error (.integration ("boom " ++ toString i))

/-! ### Claims -/

/-- C1: the claim says that once the ingest step records an error, execution
stops there and the retrieve/answer/reflect steps never run on that state.
The code violates this: `_route_after_ingest` consults only the truthiness of
`query`, so from the state `ask` builds (non-empty query, `drive_file_id =
None`) the ingest step records the error "No drive file ID provided" and the
graph nevertheless executes retrieve, answer and reflect on the errored
state; `ask` then raises at the very end.  This theorem evaluates the model
at that failing input. -/
theorem ingest_error_pipeline_continues :
    (ingest_document stubKEnv
        (initialState "u" "What is our refund policy?" none)).error =
      some "No drive file ID provided" ∧
    (runKnowledgeGraph stubKEnv ⟨0, 0⟩
        (initialState "u" "What is our refund policy?" none)).2.1 =
      ["ingest_node", "retrieve_node", "answer_node", "reflect_node"] ∧
    ask stubKEnv ⟨0, 0⟩ "u" "What is our refund policy?" =
      .error "No drive file ID provided" := by
  have h06 : (10:ℚ)⁻¹ < 6/10 := by norm_num
  have h03 : (10:ℚ)⁻¹ < 3/10 := by norm_num
  refine ⟨rfl, ?_, ?_⟩ <;>
    simp +decide [ask, runKnowledgeGraph, ingest_document, retrieve_documents,
      generate_answer, self_reflect, route_after_ingest, route_after_reflection,
      initialState, stubKEnv, h03, h06]

/-- C2 counterexample: the claim says schedule parsing is total and the
parse failure is never raised, but `followup_parse "hello"` finds no
extractable hint, leaves `follow_up_info` unset, and raises. -/
theorem followup_parse_fails_on_unextractable_text :
    followup_parse ⟨700, 540⟩ "hello" =
      .error "Could not parse scheduling information" :=
  rfl

/-- C2 (amended): whenever hint extraction finds at least one pattern in the
text — even with no parseable day or time among them — `followup_parse`
succeeds with `start_iso` equal to tomorrow at 10:00 and `end_iso` exactly
one hour later; when extraction finds nothing, the parse failure is raised. -/
theorem followup_parse_tomorrow_fallback (now : PyDateTime) (text : String) :
    (extract_time_info_keys text ≠ [] →
      followup_parse now text = .ok
        { title := "Follow-up meeting",
          start_iso := (now.addDays 1).replaceTime 10 0,
          end_iso := some (((now.addDays 1).replaceTime 10 0).addHours 1),
          attendees := some [] }) ∧
    (extract_time_info_keys text = [] →
      followup_parse now text = .error "Could not parse scheduling information") := by
  constructor
  · intro h
    cases hk : extract_time_info_keys text with
    | nil => exact absurd hk h
    | cons a t =>
      simp [followup_parse, parse_scheduling, initialState, parse_datetime, hk]
  · intro h
    simp [followup_parse, parse_scheduling, initialState, h]

/-- C2 witness: "tomorrow" has an extractable day hint, so the fallback
applies at a concrete clock. -/
theorem followup_parse_tomorrow_fallback_witness :
    followup_parse ⟨41, 137⟩ "tomorrow" =
      .ok { title := "Follow-up meeting", start_iso := ⟨42, 600⟩,
            end_iso := some ⟨42, 660⟩, attendees := some [] } :=
  (followup_parse_tomorrow_fallback ⟨41, 137⟩ "tomorrow").1 (by decide)

/-- C3: with `failure_threshold = 3`, three consecutive failing calls open
the breaker; any further call within `reset_timeout` of the last failure
fails immediately with the circuit-open error and does not invoke the
underlying operation (the breaker is returned unchanged); once
`reset_timeout` has elapsed the next call does invoke the operation
(half-open probe) and a success closes the breaker with `failure_count`
reset to 0. -/
theorem circuit_breaker_open_halfopen_cycle (t1 t2 t3 t4 t5 : ℚ)
    (e1 e2 e3 v : String) (o4 : CallOutcome)
    (h4 : t4 - t3 ≤ 30) (h5 : 30 < t5 - t3) :
    (callTrace3 t1 t2 t3 e1 e2 e3).state = .opened ∧
    (callTrace3 t1 t2 t3 e1 e2 e3).failure_count = 3 ∧
    (callTrace3 t1 t2 t3 e1 e2 e3).call t4 o4 =
      (callTrace3 t1 t2 t3 e1 e2 e3, .circuitOpenErr, false) ∧
    ((callTrace3 t1 t2 t3 e1 e2 e3).call t5 (.success v)).2.2 = true ∧
    ((callTrace3 t1 t2 t3 e1 e2 e3).call t5 (.success v)).2.1 = .ok v ∧
    ((callTrace3 t1 t2 t3 e1 e2 e3).call t5 (.success v)).1.state = .closed ∧
    ((callTrace3 t1 t2 t3 e1 e2 e3).call t5 (.success v)).1.failure_count = 0 := by
  have hc : callTrace3 t1 t2 t3 e1 e2 e3 =
      { failure_threshold := 3, reset_timeout := 30, failure_count := 3,
        last_failure_time := some t3, state := .opened } := rfl
  refine ⟨by rw [hc], by rw [hc], ?_, ?_, ?_, ?_, ?_⟩ <;>
    rw [hc] <;> simp only [CircuitBreaker.call, CircuitBreaker.proceed]
  · rw [if_neg (not_lt.mpr h4)]
  · rw [if_pos h5]; rfl
  · rw [if_pos h5]; rfl
  · rw [if_pos h5]; rfl
  · rw [if_pos h5]; rfl

/-- C3 witness: the cycle at concrete times 0, 1, 2 (failures), 20 (still
within the 30-second window) and 50 (past it). -/
theorem circuit_breaker_open_halfopen_cycle_witness :
    (callTrace3 0 1 2 "a" "b" "c").state = .opened ∧
    (callTrace3 0 1 2 "a" "b" "c").failure_count = 3 ∧
    (callTrace3 0 1 2 "a" "b" "c").call 20 (.failure "d") =
      (callTrace3 0 1 2 "a" "b" "c", .circuitOpenErr, false) ∧
    ((callTrace3 0 1 2 "a" "b" "c").call 50 (.success "v")).2.2 = true ∧
    ((callTrace3 0 1 2 "a" "b" "c").call 50 (.success "v")).2.1 = .ok "v" ∧
    ((callTrace3 0 1 2 "a" "b" "c").call 50 (.success "v")).1.state = .closed ∧
    ((callTrace3 0 1 2 "a" "b" "c").call 50 (.success "v")).1.failure_count = 0 :=
  circuit_breaker_open_halfopen_cycle 0 1 2 20 50 "a" "b" "c" "v"
    (.failure "d") (by norm_num) (by norm_num)

/-- C4 counterexample: the claim says the error re-raised after exhausting
`max_retries = 3` is the last transient error wrapped with the attempt
count; the code performs a bare `raise`, so the caller receives the last
transient error itself, unchanged and unwrapped. -/
theorem retry_exhaustion_not_wrapped :
    retry_on_error 3 allFailBehavior = (.error (.integration "boom 3"), 4) ∧
    isWrappedExc (retry_on_error 3 allFailBehavior).1 = false :=
  ⟨rfl, rfl⟩

/-- C4 (amended): with `max_retries = 3`, if every attempt fails with a
transient error the operation is invoked exactly 4 times and the last
transient error is re-raised unchanged (not wrapped with the attempt count);
a non-transient first failure is raised after exactly one invocation. -/
theorem retry_transient_and_nontransient_behavior (es : Nat → Exc) (ne : Exc)
    (beh2 : Nat → Except Exc String)
    (htrans : ∀ i, isTransient (es i) = true)
    (hnon : isTransient ne = false) (h0 : beh2 0 = .error ne) :
    retry_on_error 3 (fun i => .error (es i)) = (.error (es 3), 4) ∧
    retry_on_error 3 beh2 = (.error ne, 1) := by
  constructor
  · simp [retry_on_error, retryAux, htrans 0, htrans 1, htrans 2, htrans 3]
  · simp [retry_on_error, retryAux, h0, hnon]

/-- C4 witness: a concrete all-transient behavior and a concrete validation
failure. -/
theorem retry_transient_and_nontransient_behavior_witness :
    retry_on_error 3 (fun i => .error (.connection (toString i))) =
      (.error (.connection "3"), 4) ∧
    retry_on_error 3 (fun _ => .error (.validation "bad input")) =
      (.error (.validation "bad input"), 1) :=
  retry_transient_and_nontransient_behavior
    (fun i => .connection (toString i)) (.validation "bad input")
    (fun _ => .error (.validation "bad input"))
    (fun _ => rfl) rfl rfl

/-- C5: with attachments present, `classify` short-circuits to
`knowledge_qa` with confidence 0.9 and empty entities for every message and
context, making zero calls to the model. -/
theorem classify_attachment_short_circuit (env : ClassifierEnv)
    (message : String) (context : Option String) :
    classify env message true context =
      ({ intent := "knowledge_qa", confidence := 9/10,
         entities := emptyEntities,
         reasoning := "Message contains file attachments - routing for ingestion" },
       0) :=
  rfl

/-- C6: `classify` is total, and whenever the model call fails or its output
cannot be parsed it returns the fixed low-confidence fallback — intent
`unknown`, confidence 0.1, empty entities, reasoning naming the failure —
instead of propagating the exception. -/
theorem classify_failure_fallback (env : ClassifierEnv) (message : String)
    (context : Option String) (e : String) :
    (env.llm (full_prompt env message context) = .error e →
      classify env message false context = (fallback_classification e, 1)) ∧
    (∀ c, env.llm (full_prompt env message context) = .ok c →
      env.parse c = .error e →
      classify env message false context = (fallback_classification e, 1)) ∧
    fallback_classification e =
      { intent := "unknown", confidence := 1/10, entities := emptyEntities,
        reasoning := "Classification failed: " ++ e } := by
  refine ⟨?_, ?_, rfl⟩
  · intro h
    simp [classify, h]
  · intro c h1 h2
    simp [classify, h1, h2]

/-- C6 witness: a failing model call and a successful call with unparsable
output both land in the fallback. -/
theorem classify_failure_fallback_witness :
    classify failingClassifierEnv "hi" false none =
      (fallback_classification "boom", 1) ∧
    classify unparsableClassifierEnv "hi" false none =
      (fallback_classification "Invalid JSON", 1) :=
  ⟨(classify_failure_fallback failingClassifierEnv "hi" none "boom").1 rfl,
   (classify_failure_fallback unparsableClassifierEnv "hi" none
      "Invalid JSON").2.1 "gibberish" rfl rfl⟩

/-- C7: when the retrieved-chunk list is empty, the answer step writes the
fixed no-information answer, confidence exactly 0.1 and an empty citation
list, does not record an error, and makes zero model calls. -/
theorem answer_empty_retrieval_fixed_response (env : KEnv) (s : KState)
    (h : s.retrieved_docs = []) :
    generate_answer env s =
      ({ s with answer := no_information_answer, confidence := 1/10,
                citations := [] }, 0) := by
  simp [generate_answer, h]

/-- C7 witness: the empty-store state produced by a fresh `ask`. -/
theorem answer_empty_retrieval_fixed_response_witness :
    generate_answer stubKEnv (initialState "u" "q" none) =
      ({ (initialState "u" "q" none) with
          answer := no_information_answer,
          confidence := 1/10, citations := [] }, 0) :=
  answer_empty_retrieval_fixed_response stubKEnv (initialState "u" "q" none) rfl

/-- C8: the reflect step appends the fixed clarification suffix to the
answer exactly when the incoming confidence is below 0.3, and leaves the
answer text unchanged when the confidence is at least 0.6. -/
theorem reflect_confidence_gate (env : KEnv) (s : KState) (_hne : s.answer ≠ "") :
    (s.confidence < 3/10 →
      (self_reflect env s).1.answer = s.answer ++ clarification_suffix) ∧
    (6/10 ≤ s.confidence → (self_reflect env s).1.answer = s.answer) := by
  constructor
  · intro hc
    have h6 : s.confidence < 6/10 := lt_of_lt_of_le hc (by norm_num)
    simp only [self_reflect, if_pos h6, if_pos hc]
    split_ifs <;> rfl
  · intro hc
    simp only [self_reflect, if_neg (not_lt.mpr hc)]
    split_ifs <;> rfl

/-- C8 witness: a stubbed answer "X" with confidence 0.2 gains the suffix;
with confidence 0.8 it is unchanged. -/
theorem reflect_confidence_gate_witness :
    (self_reflect stubKEnv
        { (initialState "u" "q" none) with answer := "X", confidence := 2/10 }).1.answer =
      "X" ++ clarification_suffix ∧
    (self_reflect stubKEnv
        { (initialState "u" "q" none) with answer := "X", confidence := 8/10 }).1.answer =
      "X" :=
  ⟨(reflect_confidence_gate stubKEnv
      { (initialState "u" "q" none) with answer := "X", confidence := 2/10 }
      (by decide)).1 (by norm_num),
   (reflect_confidence_gate stubKEnv
      { (initialState "u" "q" none) with answer := "X", confidence := 8/10 }
      (by decide)).2 (by norm_num)⟩

/-- C9: a successful call in the CLOSED state returns the breaker completely
unchanged (`failure_count` is reset only on a half-open success), so
non-consecutive failures accumulate: from a fresh breaker with threshold 3,
the sequence fail, success, fail, success, fail opens the breaker. -/
theorem breaker_closed_success_keeps_failure_count :
    (∀ (cb : CircuitBreaker) (now : ℚ) (v : String), cb.state = .closed →
      cb.call now (.success v) = (cb, .ok v, true)) ∧
    (∀ t1 t2 t3 t4 t5 : ℚ,
      (((((openai_circuit_breaker.call t1 (.failure "f1")).1.call t2
          (.success "s1")).1.call t3 (.failure "f2")).1.call t4
          (.success "s2")).1.call t5 (.failure "f3")).1.state = .opened ∧
      (((((openai_circuit_breaker.call t1 (.failure "f1")).1.call t2
          (.success "s1")).1.call t3 (.failure "f2")).1.call t4
          (.success "s2")).1.call t5 (.failure "f3")).1.failure_count = 3) := by
  constructor
  · intro cb now v h
    obtain ⟨a, b, c, d, st⟩ := cb
    cases st with
    | closed => rfl
    | opened => exact absurd h (by simp)
    | halfOpen => exact absurd h (by simp)
  · intro t1 t2 t3 t4 t5
    exact ⟨rfl, rfl⟩

/-- C9 witness: the fresh generation-model breaker is closed, and the mixed
fail/success sequence at concrete times opens it. -/
theorem breaker_closed_success_keeps_failure_count_witness :
    openai_circuit_breaker.call 7 (.success "v") =
      (openai_circuit_breaker, .ok "v", true) ∧
    (((((openai_circuit_breaker.call 1 (.failure "f1")).1.call 2
        (.success "s1")).1.call 3 (.failure "f2")).1.call 4
        (.success "s2")).1.call 5 (.failure "f3")).1.state = .opened :=
  ⟨breaker_closed_success_keeps_failure_count.1 openai_circuit_breaker 7 "v" rfl,
   (breaker_closed_success_keeps_failure_count.2 1 2 3 4 5).1⟩

/-- C10: for every lead-data dictionary the quality score is within the
closed unit interval — the four presence bonuses are non-negative and the
total is capped at 1.0. -/
theorem quality_score_unit_interval (lead : LeadData) :
    0 ≤ calculate_quality_score lead ∧ calculate_quality_score lead ≤ 1 := by
  unfold calculate_quality_score
  constructor
  · apply le_min (by norm_num)
    split_ifs <;> norm_num
  · exact min_le_left _ _

end Copilot
